import Mathlib

/-!
Verification development for the envgod server-side SDK
(`src/index.ts`, `src/types.ts`).

The TypeScript source is shallowly embedded: the async orchestrator
`loadEnvInternal` becomes a pure interpreter threading explicit state
(cache map, process environment) and consulting a `World` oracle for the
outcome of each network request; the sequence of outgoing requests is
recorded in a trace.  JavaScript truthiness tests on optional strings and
numbers are modelled explicitly (`truthy`, the `e != 0` test on expiry
timestamps).
-/

namespace EnvGuards

/-- Configuration record, from `EnvGuardsConfig` in `src/types.ts`:
all six fields are optional strings (`undefined` is `none`). -/
structure EnvGuardsConfig where
  apiUrl : Option String
  apiKey : Option String
  org : Option String
  project : Option String
  env : Option String
  service : Option String
deriving DecidableEq, Repr

/-- Caller options, from `LoadEnvOptions` in `src/types.ts`. -/
structure LoadEnvOptions where
  config : Option EnvGuardsConfig
  timeout : Option Nat
deriving DecidableEq, Repr

/-- Per-fingerprint cache entry, from `CacheState` in `src/index.ts`
(lines 4-8): token, its expiry in ms, and the last fetched bundle. -/
structure CacheState where
  token : Option String
  tokenExpiresAt : Option Int
  bundle : Option (List (String × String))
deriving DecidableEq, Repr

/-- Environment-style string map (`process.env` and bundles), as an
association list where the first matching key wins on lookup. -/
abbrev EnvMap := List (String × String)

/-- JavaScript truthiness of an optional string: `undefined`, `null` and
`""` are falsy, every other string is truthy. -/
def truthy : Option String → Bool
  | none => false
  | some s => !s.isEmpty

/-- Lookup in an association list, first match wins. -/
def lookupEnv (e : EnvMap) (k : String) : Option String :=
  (e.find? (fun p => p.1 == k)).map (fun p => p.2)

/-- Models `Object.assign(target, source)`: every key of the bundle
overrides the old environment. -/
def assignEnv (e : EnvMap) (b : EnvMap) : EnvMap := b ++ e

/-- Models `getFullConfig` (`src/index.ts` lines 71-81): each field is the
explicit override (`options?.config?.field`) when defined, else the
ambient environment variable. -/
def getFullConfig (opts : Option LoadEnvOptions) (penv : EnvMap) : EnvGuardsConfig :=
  { apiUrl := ((opts.bind LoadEnvOptions.config).bind EnvGuardsConfig.apiUrl) <|>
      lookupEnv penv "ENV_GUARDS_API_URL"
    apiKey := ((opts.bind LoadEnvOptions.config).bind EnvGuardsConfig.apiKey) <|>
      lookupEnv penv "ENV_GUARDS_API_KEY"
    org := ((opts.bind LoadEnvOptions.config).bind EnvGuardsConfig.org) <|>
      lookupEnv penv "ENV_GUARDS_ORG"
    project := ((opts.bind LoadEnvOptions.config).bind EnvGuardsConfig.project) <|>
      lookupEnv penv "ENV_GUARDS_PROJECT"
    env := ((opts.bind LoadEnvOptions.config).bind EnvGuardsConfig.env) <|>
      lookupEnv penv "ENV_GUARDS_ENV"
    service := ((opts.bind LoadEnvOptions.config).bind EnvGuardsConfig.service) <|>
      lookupEnv penv "ENV_GUARDS_SERVICE" }

/-- Fixed token skew margin in milliseconds (`TOKEN_SKEW_MS = 30 * 1000`,
`src/index.ts` line 135). -/
def TOKEN_SKEW_MS : Int := 30 * 1000

/-- Models `let tokenValid = token && state.tokenExpiresAt &&
state.tokenExpiresAt > (now + TOKEN_SKEW_MS)` (`src/index.ts` line 144),
including the JavaScript truthiness of both operands: an empty-string
token and a zero expiry timestamp are falsy. -/
def tokenValid (st : CacheState) (now : Int) : Bool :=
  truthy st.token &&
    (match st.tokenExpiresAt with
     | none => false
     | some e => (e != 0) && decide (now + TOKEN_SKEW_MS < e))

/-- Models `runtimeKey.substring(0, 12)`: the first 12 characters (the
whole string when it is shorter). -/
def jsSubstring (s : String) (n : Nat) : String :=
  String.mk (s.data.take n)

/-- JavaScript `Array.prototype.join` renders `undefined` as the empty
string. -/
def optStr : Option String → String
  | none => ""
  | some s => s

/-- Models `getConfigFingerprint` (`src/index.ts` lines 118-121):
`[apiUrl, keyPrefix, org, project, env, service].join('|')` where
`keyPrefix = runtimeKey.substring(0, 12)`. -/
def getConfigFingerprint (apiUrl runtimeKey : String) (cfg : EnvGuardsConfig) : String :=
  String.intercalate "|"
    [apiUrl, jsSubstring runtimeKey 12, optStr cfg.org, optStr cfg.project,
     optStr cfg.env, optStr cfg.service]

/-- Models `JSON.stringify(scope)` where
`const { apiUrl, ...scope } = config` (`src/index.ts` lines 126, 90):
the serialized body keeps every remaining defined field of the merged
configuration — including `apiKey` — in declaration order; `undefined`
fields are omitted. -/
def exchangeRequestBody (cfg : EnvGuardsConfig) : List (String × String) :=
  (match cfg.apiKey with | some v => [("apiKey", v)] | none => []) ++
  (match cfg.org with | some v => [("org", v)] | none => []) ++
  (match cfg.project with | some v => [("project", v)] | none => []) ++
  (match cfg.env with | some v => [("env", v)] | none => []) ++
  (match cfg.service with | some v => [("service", v)] | none => [])

/-- Error taxonomy of the SDK, one constructor per distinct `throw` site
in `src/index.ts`. -/
inductive LoadError where
  | browserEnv
  | missingApiUrl
  | runtimeKeyNotFound
  | timedOut (ms : Nat)
  | authExchangeFailed (status : Nat) (statusText : String)
  | unauthorized
  | fetchBundleFailed (status : Nat) (statusText : String)
deriving DecidableEq, Repr

/-- Exact message string of each error, from the `Error` constructions in
`src/index.ts`. -/
def errorMessage : LoadError → String
  | .browserEnv =>
      "[Env.Guards] Security Warning: SDK execution attempting in browser environment. This SDK is server-only."
  | .missingApiUrl =>
      "[Env.Guards] Missing required configuration: apiUrl is required."
  | .runtimeKeyNotFound =>
      "[Env.Guards] Runtime key not found. Please set ENV_GUARDS_API_KEY, use `env-guards run`, or run `env-guards add-runtime-key`."
  | .timedOut ms =>
      "[Env.Guards] Request timed out after " ++ toString ms ++ "ms"
  | .authExchangeFailed status statusText =>
      "[Env.Guards] Auth exchange failed: " ++ toString status ++ " " ++ statusText
  | .unauthorized => "401"
  | .fetchBundleFailed status statusText =>
      "[Env.Guards] Fetch bundle failed: " ++ toString status ++ " " ++ statusText

/-- Keytar account key (`src/index.ts` lines 58-60): built only when
`apiUrl`, `org`, `project`, `env` and `service` are all truthy. -/
def keytarAccount (cfg : EnvGuardsConfig) : Option String :=
  if truthy cfg.apiUrl && truthy cfg.org && truthy cfg.project &&
      truthy cfg.env && truthy cfg.service then
    some ("runtime:" ++ optStr cfg.apiUrl ++ ":" ++ optStr cfg.org ++ ":" ++
      optStr cfg.project ++ ":" ++ optStr cfg.env ++ ":" ++ optStr cfg.service)
  else
    none

/-- Outcome of the keytar step (`src/index.ts` lines 54-66): the account
key is consulted only when buildable, the store may fail (`Except.error`,
covering both a failed dynamic import and a `getPassword` rejection), and
a falsy stored key is discarded. -/
def keytarLookup (cfg : EnvGuardsConfig)
    (kt : String → String → Except Unit (Option String)) : Option String :=
  match keytarAccount cfg with
  | none => none
  | some account =>
    match kt "env-guards" account with
    | .error _ => none
    | .ok none => none
    | .ok (some k) => if k.isEmpty then none else some k

/-- Models `resolveRuntimeKey` (`src/index.ts` lines 47-69): explicit
`config.apiKey`, then the `ENV_GUARDS_API_KEY` environment variable, then
the best-effort keytar lookup, else the terminal error. -/
def resolveRuntimeKey (cfg : EnvGuardsConfig) (penv : EnvMap)
    (kt : String → String → Except Unit (Option String)) : Except LoadError String :=
  if truthy cfg.apiKey then
    .ok (cfg.apiKey.getD "")
  else if truthy (lookupEnv penv "ENV_GUARDS_API_KEY") then
    .ok ((lookupEnv penv "ENV_GUARDS_API_KEY").getD "")
  else
    match keytarLookup cfg kt with
    | some k => .ok k
    | none => .error .runtimeKeyNotFound

/-- Outcome of one HTTP exchange request as decided by the outside world:
a response with status, status text, parsed token and parsed absolute
expiry instant in ms, or an abort by the timeout controller. -/
inductive ExchangeResp where
  | resp (status : Nat) (statusText : String) (token : String) (expiresAtMs : Int)
  | timeout
deriving DecidableEq, Repr

/-- Outcome of one HTTP bundle request as decided by the outside world. -/
inductive FetchResp where
  | resp (status : Nat) (statusText : String) (values : List (String × String))
  | timeout
deriving DecidableEq, Repr

/-- The ambient world of one load attempt: browser detection, the clock,
the keytar collaborator, and the outcome of the n-th exchange request and
the n-th bundle request (0-based, counting requests actually issued). -/
structure World where
  isBrowser : Bool
  now : Int
  keytar : String → String → Except Unit (Option String)
  exchangeAt : Nat → ExchangeResp
  fetchAt : Nat → FetchResp

/-- The `res.ok` predicate of the Fetch API: status in the range 200-299. -/
def resOk (status : Nat) : Bool :=
  200 ≤ status && status ≤ 299

/-- One outgoing network request, as recorded in the trace: an exchange
with its JSON body, or a bundle fetch with its bearer token. -/
inductive NetOp where
  | exchange (body : List (String × String))
  | fetch (token : String)
deriving DecidableEq, Repr

/-- Whether a trace entry is an exchange request. -/
def NetOp.isExchange : NetOp → Bool
  | .exchange _ => true
  | .fetch _ => false

/-- Whether a trace entry is a bundle fetch request. -/
def NetOp.isFetch : NetOp → Bool
  | .exchange _ => false
  | .fetch _ => true

/-- Number of bundle fetch requests in a trace. -/
def fetchOps (t : List NetOp) : Nat :=
  (t.filter NetOp.isFetch).length

/-- Number of exchange requests in a trace. -/
def exchangeOps (t : List NetOp) : Nat :=
  (t.filter NetOp.isExchange).length

/-- Number of exchange requests issued before the first bundle fetch:
the exchanges of the main path, excluding the 401-retry exchange. -/
def mainExchangeOps (t : List NetOp) : Nat :=
  (t.takeWhile NetOp.isExchange).length

/-- Models `exchangeToken` (`src/index.ts` lines 83-102): the n-th
exchange request; on a non-ok status the error carries the status, on
success the token and expiry are written into the cache entry and the
token returned.  Mutation happens only on success. -/
def runExchange (w : World) (n : Nat) (entry : CacheState) (timeout : Nat) :
    Except LoadError (String × CacheState) :=
  match w.exchangeAt n with
  | .timeout => .error (.timedOut timeout)
  | .resp status statusText token expiresAtMs =>
    if resOk status then
      .ok (token, { entry with token := some token, tokenExpiresAt := some expiresAtMs })
    else
      .error (.authExchangeFailed status statusText)

/-- Models `fetchBundle` (`src/index.ts` lines 104-116): the n-th bundle
request; a 401 status is the distinguished unauthorized signal, any other
non-ok status is a generic failure, success returns the parsed values. -/
def runFetch (w : World) (n : Nat) (timeout : Nat) :
    Except LoadError (List (String × String)) :=
  match w.fetchAt n with
  | .timeout => .error (.timedOut timeout)
  | .resp status statusText values =>
    if status == 401 then .error .unauthorized
    else if resOk status then .ok values
    else .error (.fetchBundleFailed status statusText)

/-- Full observable outcome of one `loadEnvInternal` run: the returned
bundle or error, the final cache map, the final process environment, and
the trace of network requests issued. -/
structure LoadOutcome where
  result : Except LoadError (List (String × String))
  cache : List (String × CacheState)
  procEnv : EnvMap
  trace : List NetOp
deriving Repr

/-- Outcome of a run that ends before any network request and without
touching cache or environment. -/
def noNetOutcome (r : Except LoadError (List (String × String)))
    (cache0 : List (String × CacheState)) (penv0 : EnvMap) : LoadOutcome :=
  { result := r, cache := cache0, procEnv := penv0, trace := [] }

/-- Cache map lookup by fingerprint. -/
def cacheLookup (c : List (String × CacheState)) (fp : String) : Option CacheState :=
  (c.find? (fun p => p.1 == fp)).map (fun p => p.2)

/-- Cache map update: replace the entry at the fingerprint, or add it. -/
def cacheUpdate (c : List (String × CacheState)) (fp : String) (st : CacheState) :
    List (String × CacheState) :=
  (fp, st) :: c.filter (fun p => p.1 != fp)

/-- The fetch-then-maybe-retry tail of `loadEnvInternal` (`src/index.ts`
lines 155-171): first bundle fetch (global request index 0); on the
distinguished unauthorized error, clear the entry's token and bundle,
perform one more exchange (at index `exIdx`) and one more fetch (index 1),
surfacing any failure of the retry; on any other error, surface it. -/
def fetchPhase (w : World) (cfg : EnvGuardsConfig) (timeout : Nat) (fp : String)
    (entry : CacheState) (token : String) (exIdx : Nat) (tracePre : List NetOp)
    (cache0 : List (String × CacheState)) (penv0 : EnvMap) : LoadOutcome :=
  match runFetch w 0 timeout with
  | .ok values =>
    { result := .ok values
      cache := cacheUpdate cache0 fp { entry with bundle := some values }
      procEnv := assignEnv penv0 values
      trace := tracePre ++ [.fetch token] }
  | .error .unauthorized =>
    match runExchange w exIdx { entry with token := none, bundle := none } timeout with
    | .error e =>
      { result := .error e
        cache := cacheUpdate cache0 fp { entry with token := none, bundle := none }
        procEnv := penv0
        trace := tracePre ++ [.fetch token, .exchange (exchangeRequestBody cfg)] }
    | .ok (token2, entry2) =>
      match runFetch w 1 timeout with
      | .ok values =>
        { result := .ok values
          cache := cacheUpdate cache0 fp { entry2 with bundle := some values }
          procEnv := assignEnv penv0 values
          trace := tracePre ++ [.fetch token, .exchange (exchangeRequestBody cfg), .fetch token2] }
      | .error e2 =>
        { result := .error e2
          cache := cacheUpdate cache0 fp entry2
          procEnv := penv0
          trace := tracePre ++ [.fetch token, .exchange (exchangeRequestBody cfg), .fetch token2] }
  | .error e =>
    { result := .error e
      cache := cacheUpdate cache0 fp entry
      procEnv := penv0
      trace := tracePre ++ [.fetch token] }

/-- The body of `loadEnvInternal` after configuration and credential
resolution (`src/index.ts` lines 133-171): evaluate token validity,
exchange if needed, short-circuit on a cached bundle under a pre-valid
token, else fetch (with the 401 retry inside `fetchPhase`). -/
def afterResolve (w : World) (opts : Option LoadEnvOptions) (cfg : EnvGuardsConfig)
    (runtimeKey : String) (cache0 : List (String × CacheState)) (penv0 : EnvMap) :
    LoadOutcome :=
  let timeout := (opts.bind LoadEnvOptions.timeout).getD 5000
  let fp := getConfigFingerprint (cfg.apiUrl.getD "") runtimeKey cfg
  let entry := (cacheLookup cache0 fp).getD
    { token := none, tokenExpiresAt := none, bundle := none }
  if tokenValid entry w.now then
    match entry.bundle with
    | some b =>
      { result := .ok b
        cache := cacheUpdate cache0 fp entry
        procEnv := assignEnv penv0 b
        trace := [] }
    | none =>
      fetchPhase w cfg timeout fp entry (entry.token.getD "") 0 [] cache0 penv0
  else
    match runExchange w 0 entry timeout with
    | .error e =>
      { result := .error e
        cache := cacheUpdate cache0 fp entry
        procEnv := penv0
        trace := [.exchange (exchangeRequestBody cfg)] }
    | .ok (token, entry1) =>
      fetchPhase w cfg timeout fp entry1 token 1
        [.exchange (exchangeRequestBody cfg)] cache0 penv0

/-- Models `loadEnvInternal` (`src/index.ts` lines 123-172): browser
check, configuration merge, `apiUrl` presence check, credential
resolution, then the cached/exchange/fetch orchestration. -/
def loadEnvInternal (w : World) (opts : Option LoadEnvOptions)
    (cache0 : List (String × CacheState)) (penv0 : EnvMap) : LoadOutcome :=
  if w.isBrowser then
    noNetOutcome (.error .browserEnv) cache0 penv0
  else
    let cfg := getFullConfig opts penv0
    if truthy cfg.apiUrl then
      match resolveRuntimeKey cfg penv0 w.keytar with
      | .error e => noNetOutcome (.error e) cache0 penv0
      | .ok runtimeKey => afterResolve w opts cfg runtimeKey cache0 penv0
    else
      noNetOutcome (.error .missingApiUrl) cache0 penv0

/-- State of the module-level single-flight gate (`src/index.ts` lines
10-11, 174-184): the identity of the pending computation, if any, and the
list of internal computations launched so far, each with the options it
was launched with.  A computation's identity is its index in `runs`. -/
structure GateState where
  pending : Option Nat
  runs : List (Option LoadEnvOptions)
deriving DecidableEq, Repr

/-- Models one call to `loadEnv` (`src/index.ts` lines 174-184): while a
computation is pending the caller receives it unchanged (the caller's
options are never read); otherwise a fresh `loadEnvInternal` computation
is launched with the caller's options and becomes the pending one.
Returns the identity of the computation the caller awaits, and the new
gate state. -/
def loadEnvStep (g : GateState) (opts : Option LoadEnvOptions) : Nat × GateState :=
  match g.pending with
  | some id => (id, g)
  | none => (g.runs.length, { pending := some g.runs.length, runs := g.runs ++ [opts] })

/-- Models the `.finally(() => { pendingLoadPromise = null; })` handler:
when the pending computation settles — fulfilled or rejected — the gate
clears. -/
def completeStep (g : GateState) : GateState :=
  { g with pending := none }

/-- A burst of `loadEnv` calls with no settlement in between: every call
is processed by `loadEnvStep` before the pending computation completes.
Returns the computation identity each caller awaits, and the final gate
state. -/
def callsWhilePending : GateState → List (Option LoadEnvOptions) → List Nat × GateState
  | g, [] => ([], g)
  | g, o :: rest =>
    let p := loadEnvStep g o
    let q := callsWhilePending p.2 rest
    (p.1 :: q.1, q.2)

/-- The observable outcome a caller awaiting computation `id` receives:
`loadEnvInternal` run with the options that computation was launched
with. -/
def runOutcome (w : World) (cache0 : List (String × CacheState)) (penv0 : EnvMap)
    (g : GateState) (id : Nat) : LoadOutcome :=
  loadEnvInternal w (g.runs.getD id none) cache0 penv0

/-- Whether a character list occurs contiguously at the start of another. -/
def startsWithSeq : List Char → List Char → Bool
  | [], _ => true
  | _ :: _, [] => false
  | a :: as, b :: bs => a == b && startsWithSeq as bs

/-- Whether a character list occurs contiguously anywhere in another. -/
def containsSeq (needle : List Char) (hay : List Char) : Bool :=
  match hay with
  | [] => startsWithSeq needle []
  | _ :: rest => startsWithSeq needle hay || containsSeq needle rest

/-- Whether one string mentions another as a contiguous substring. -/
def mentions (msg field : String) : Bool :=
  containsSeq field.data msg.data

/-- Validity test as the specification words it, without the JavaScript
truthiness of the implementation: token present, expiry present, expiry
beyond now plus the skew margin. -/
def tokenPresentAndFresh (st : CacheState) (now : Int) : Bool :=
  st.token.isSome &&
    (match st.tokenExpiresAt with
     | none => false
     | some e => decide (now + TOKEN_SKEW_MS < e))

/-- The retry cycle as the specification words it: with the cache entry's
token and bundle cleared, run one more exchange and one more bundle
fetch; any failure — of the exchange or of the retried fetch, a second
401 included — is surfaced unchanged, and no further request follows. -/
def retryCycleSpec (w : World) (cfg : EnvGuardsConfig) (timeout : Nat) (fp : String)
    (cleared : CacheState) (exIdx : Nat) (tracePre : List NetOp)
    (cache0 : List (String × CacheState)) (penv0 : EnvMap) : LoadOutcome :=
  match runExchange w exIdx cleared timeout with
  | .error e =>
    { result := .error e
      cache := cacheUpdate cache0 fp cleared
      procEnv := penv0
      trace := tracePre ++ [.exchange (exchangeRequestBody cfg)] }
  | .ok (token2, entry2) =>
    match runFetch w 1 timeout with
    | .ok values =>
      { result := .ok values
        cache := cacheUpdate cache0 fp { entry2 with bundle := some values }
        procEnv := assignEnv penv0 values
        trace := tracePre ++ [.exchange (exchangeRequestBody cfg), .fetch token2] }
    | .error e2 =>
      { result := .error e2
        cache := cacheUpdate cache0 fp entry2
        procEnv := penv0
        trace := tracePre ++ [.exchange (exchangeRequestBody cfg), .fetch token2] }

/-- Whether a fetch outcome is a response with HTTP status 401. -/
def FetchResp.is401 : FetchResp → Bool
  | .resp status _ _ => status == 401
  | .timeout => false

section HelperLemmas

/-- A key/value pair found in the bundle is found unchanged in the
environment after `Object.assign`. -/
theorem lookupEnv_assignEnv {b e : EnvMap} {k v : String}
    (h : lookupEnv b k = some v) : lookupEnv (assignEnv e b) k = some v := by
  unfold lookupEnv assignEnv at *
  rw [List.find?_append]
  rcases h' : List.find? (fun p => p.1 == k) b with _ | p
  · rw [h'] at h; simp at h
  · rw [h'] at h; simp_all

/-- While a computation is pending, a burst of calls leaves the gate
unchanged and hands every caller the pending computation. -/
theorem callsWhilePending_of_pending (l : List (Option LoadEnvOptions))
    (g : GateState) (id : Nat) (h : g.pending = some id) :
    callsWhilePending g l = (l.map (fun _ => id), g) := by
  induction l with
  | nil => simp [callsWhilePending]
  | cons o rest ih => simp [callsWhilePending, loadEnvStep, h, ih]

/-- The fetch phase issues the recorded first fetch and then at most one
further exchange and one further fetch. -/
theorem fetchPhase_trace_shape (w : World) (cfg : EnvGuardsConfig) (timeout : Nat)
    (fp : String) (entry : CacheState) (token : String) (exIdx : Nat)
    (tracePre : List NetOp) (cache0 : List (String × CacheState)) (penv0 : EnvMap) :
    ∃ rest,
      (fetchPhase w cfg timeout fp entry token exIdx tracePre cache0 penv0).trace =
        tracePre ++ .fetch token :: rest ∧
      fetchOps rest ≤ 1 ∧ exchangeOps rest ≤ 1 := by
  unfold fetchPhase
  split
  · exact ⟨[], rfl, by simp [fetchOps, exchangeOps], by simp [fetchOps, exchangeOps]⟩
  · split
    · exact ⟨[.exchange (exchangeRequestBody cfg)], rfl,
        by simp [fetchOps, exchangeOps, NetOp.isFetch, NetOp.isExchange],
        by simp [fetchOps, exchangeOps, NetOp.isFetch, NetOp.isExchange]⟩
    · split <;>
        exact ⟨[.exchange (exchangeRequestBody cfg), .fetch _], rfl,
          by simp [fetchOps, exchangeOps, NetOp.isFetch, NetOp.isExchange],
          by simp [fetchOps, exchangeOps, NetOp.isFetch, NetOp.isExchange]⟩
  · exact ⟨[], rfl, by simp [fetchOps, exchangeOps], by simp [fetchOps, exchangeOps]⟩

/-- The unauthorized error arises only from a 401 response. -/
theorem runFetch_not_unauthorized {w : World} {n timeout : Nat}
    (h : (w.fetchAt n).is401 = false) :
    runFetch w n timeout ≠ .error .unauthorized := by
  cases hf : w.fetchAt n with
  | timeout => simp [runFetch, hf]
  | resp status statusText values =>
    rw [hf] at h
    simp only [FetchResp.is401] at h
    simp only [runFetch, hf, h]
    split
    · simp_all
    · split <;> simp

/-- Without a 401 on the first fetch, the fetch phase issues exactly that
one fetch and nothing more. -/
theorem fetchPhase_trace_no401 (w : World) (cfg : EnvGuardsConfig) (timeout : Nat)
    (fp : String) (entry : CacheState) (token : String) (exIdx : Nat)
    (tracePre : List NetOp) (cache0 : List (String × CacheState)) (penv0 : EnvMap)
    (h : (w.fetchAt 0).is401 = false) :
    (fetchPhase w cfg timeout fp entry token exIdx tracePre cache0 penv0).trace =
      tracePre ++ [.fetch token] := by
  unfold fetchPhase
  split
  · rfl
  · rename_i heq
    exact absurd heq (runFetch_not_unauthorized h)
  · rfl

/-- Counting helpers for the main-path exchange count. -/
theorem mainExchangeOps_fetch_cons (t : String) (rest : List NetOp) :
    mainExchangeOps (.fetch t :: rest) = 0 := by
  simp [mainExchangeOps, List.takeWhile_cons, NetOp.isExchange]

/-- A trace opening with one exchange then a fetch has main-path exchange
count one. -/
theorem mainExchangeOps_exchange_fetch (b : List (String × String)) (t : String)
    (rest : List NetOp) :
    mainExchangeOps (.exchange b :: .fetch t :: rest) = 1 := by
  simp [mainExchangeOps, List.takeWhile_cons, NetOp.isExchange, NetOp.isFetch]

/-- A trace consisting of one failed exchange has main-path exchange
count one. -/
theorem mainExchangeOps_exchange_nil (b : List (String × String)) :
    mainExchangeOps [.exchange b] = 1 := by
  simp [mainExchangeOps, List.takeWhile_cons, NetOp.isExchange]

/-- Request-count bound for the fetch phase. -/
theorem fetchPhase_ops_le (w : World) (cfg : EnvGuardsConfig) (timeout : Nat)
    (fp : String) (entry : CacheState) (token : String) (exIdx : Nat)
    (tracePre : List NetOp) (cache0 : List (String × CacheState)) (penv0 : EnvMap) :
    fetchOps (fetchPhase w cfg timeout fp entry token exIdx tracePre cache0 penv0).trace ≤
        fetchOps tracePre + 2 ∧
    exchangeOps (fetchPhase w cfg timeout fp entry token exIdx tracePre cache0 penv0).trace ≤
        exchangeOps tracePre + 1 := by
  obtain ⟨rest, htr, hr1, hr2⟩ :=
    fetchPhase_trace_shape w cfg timeout fp entry token exIdx tracePre cache0 penv0
  rw [htr]
  unfold fetchOps exchangeOps at *
  simp only [List.filter_append, List.length_append, List.filter_cons, NetOp.isFetch,
    NetOp.isExchange]
  simp
  omega

/-- A full load issues at most two bundle fetches and at most two
exchanges: the main-path requests plus the single retry cycle, never a
third attempt. -/
theorem loadEnvInternal_ops_le (w : World) (opts : Option LoadEnvOptions)
    (cache0 : List (String × CacheState)) (penv0 : EnvMap) :
    fetchOps (loadEnvInternal w opts cache0 penv0).trace ≤ 2 ∧
    exchangeOps (loadEnvInternal w opts cache0 penv0).trace ≤ 2 := by
  unfold loadEnvInternal
  split
  · simp [noNetOutcome, fetchOps, exchangeOps]
  · dsimp only
    split
    · split
      · simp [noNetOutcome, fetchOps, exchangeOps]
      · simp only [afterResolve]
        split
        · split
          · simp [fetchOps, exchangeOps]
          · constructor
            · exact le_trans (fetchPhase_ops_le _ _ _ _ _ _ _ _ _ _).1
                (by simp [fetchOps])
            · exact le_trans (fetchPhase_ops_le _ _ _ _ _ _ _ _ _ _).2
                (by simp [exchangeOps])
        · split
          · simp [fetchOps, exchangeOps, NetOp.isFetch, NetOp.isExchange]
          · constructor
            · exact le_trans (fetchPhase_ops_le _ _ _ _ _ _ _ _ _ _).1
                (by simp [fetchOps, NetOp.isFetch])
            · exact le_trans (fetchPhase_ops_le _ _ _ _ _ _ _ _ _ _).2
                (by simp [exchangeOps, NetOp.isExchange])
    · simp [noNetOutcome, fetchOps, exchangeOps]

/-- In every terminal outcome of the fetch phase, a success has applied
exactly the returned bundle to the environment and a failure has left
the environment untouched. -/
theorem fetchPhase_apply (w : World) (cfg : EnvGuardsConfig) (timeout : Nat)
    (fp : String) (entry : CacheState) (token : String) (exIdx : Nat)
    (tracePre : List NetOp) (cache0 : List (String × CacheState)) (penv0 : EnvMap) :
    (∀ b, (fetchPhase w cfg timeout fp entry token exIdx tracePre cache0 penv0).result = .ok b →
      (fetchPhase w cfg timeout fp entry token exIdx tracePre cache0 penv0).procEnv =
        assignEnv penv0 b) ∧
    (∀ e, (fetchPhase w cfg timeout fp entry token exIdx tracePre cache0 penv0).result = .error e →
      (fetchPhase w cfg timeout fp entry token exIdx tracePre cache0 penv0).procEnv = penv0) := by
  unfold fetchPhase
  split
  · constructor <;> intro x hx <;> simp_all
  · split
    · constructor <;> intro x hx <;> simp_all
    · split <;> (constructor <;> intro x hx <;> simp_all)
  · constructor <;> intro x hx <;> simp_all

/-- Success applies exactly the returned bundle; failure leaves the
environment untouched — for the whole load. -/
theorem loadEnvInternal_apply (w : World) (opts : Option LoadEnvOptions)
    (cache0 : List (String × CacheState)) (penv0 : EnvMap) :
    (∀ b, (loadEnvInternal w opts cache0 penv0).result = .ok b →
      (loadEnvInternal w opts cache0 penv0).procEnv = assignEnv penv0 b) ∧
    (∀ e, (loadEnvInternal w opts cache0 penv0).result = .error e →
      (loadEnvInternal w opts cache0 penv0).procEnv = penv0) := by
  unfold loadEnvInternal
  split
  · constructor <;> intro x hx <;> simp_all [noNetOutcome]
  · dsimp only
    split
    · split
      · constructor <;> intro x hx <;> simp_all [noNetOutcome]
      · simp only [afterResolve]
        split
        · split
          · constructor <;> intro x hx <;> simp_all
          · exact fetchPhase_apply w _ _ _ _ _ 0 [] cache0 penv0
        · split
          · constructor <;> intro x hx <;> simp_all
          · exact fetchPhase_apply w _ _ _ _ _ 1 _ cache0 penv0
    · constructor <;> intro x hx <;> simp_all [noNetOutcome]

/-- Without a 401 on the first fetch there is no retry: at most one
exchange and one fetch in the whole load. -/
theorem loadEnvInternal_ops_no401 (w : World) (opts : Option LoadEnvOptions)
    (cache0 : List (String × CacheState)) (penv0 : EnvMap)
    (h : (w.fetchAt 0).is401 = false) :
    exchangeOps (loadEnvInternal w opts cache0 penv0).trace ≤ 1 ∧
    fetchOps (loadEnvInternal w opts cache0 penv0).trace ≤ 1 := by
  unfold loadEnvInternal
  split
  · simp [noNetOutcome, fetchOps, exchangeOps]
  · dsimp only
    split
    · split
      · simp [noNetOutcome, fetchOps, exchangeOps]
      · simp only [afterResolve]
        split
        · split
          · simp [fetchOps, exchangeOps]
          · rw [fetchPhase_trace_no401 _ _ _ _ _ _ _ _ _ _ h]
            simp [fetchOps, exchangeOps, NetOp.isFetch, NetOp.isExchange]
        · split
          · simp [fetchOps, exchangeOps, NetOp.isFetch, NetOp.isExchange]
          · rw [fetchPhase_trace_no401 _ _ _ _ _ _ _ _ _ _ h]
            simp [fetchOps, exchangeOps, NetOp.isFetch, NetOp.isExchange]
    · simp [noNetOutcome, fetchOps, exchangeOps]

/-- Looking up the index just past a list hits the appended element. -/
theorem getD_append_singleton {α : Type} (l : List α) (a d : α) :
    (l ++ [a]).getD l.length d = a := by
  induction l with
  | nil => rfl
  | cons x xs ih => simp [ih]

end HelperLemmas

section Fixtures

/-- Demonstration configuration: endpoint, explicit credential, and scope
fields (no organization). -/
def cfgDemo : EnvGuardsConfig :=
  { apiUrl := some "http://api.test", apiKey := some "k1", org := none,
    project := some "myapp", env := some "prod", service := some "web" }

/-- Options carrying the demonstration configuration. -/
def optsDemo : Option LoadEnvOptions :=
  some { config := some cfgDemo, timeout := none }

/-- Options describing a different endpoint, for the pending-gate
scenario. -/
def optsOther : Option LoadEnvOptions :=
  some { config := some { cfgDemo with apiUrl := some "http://other.test" },
         timeout := some 1000 }

/-- Keytar collaborator that always fails (native module unavailable). -/
def ktNone : String → String → Except Unit (Option String) :=
  fun _ _ => .error ()

/-- Fingerprint of the demonstration configuration under credential
`k1`. -/
def fpDemo : String := "http://api.test|k1||myapp|prod|web"

/-- Server world where the exchange yields token `t1` expiring far in the
future and the bundle fetch succeeds with one key. -/
def wDemo : World :=
  { isBrowser := false, now := 0, keytar := ktNone
    exchangeAt := fun _ => .resp 200 "OK" "t1" 10000000
    fetchAt := fun _ => .resp 200 "OK" [("FOO", "bar")] }

/-- Server world where the first fetch is rejected with 401 and the retry
(fresh token `t-new`) succeeds. -/
def w401Demo : World :=
  { isBrowser := false, now := 0, keytar := ktNone
    exchangeAt := fun n =>
      if n == 0 then .resp 200 "OK" "t-old" 999999 else .resp 200 "OK" "t-new" 999999
    fetchAt := fun n =>
      if n == 0 then .resp 401 "Unauthorized" [] else .resp 200 "OK" [("RECOVERED", "true")] }

/-- Server world that would time out on any network request. -/
def wQuiet : World :=
  { isBrowser := false, now := 0, keytar := ktNone
    exchangeAt := fun _ => .timeout
    fetchAt := fun _ => .timeout }

/-- Cache entry holding a fresh valid token and a cached bundle. -/
def entryDemo : CacheState :=
  { token := some "t1", tokenExpiresAt := some 10000000, bundle := some [("FOO", "bar")] }

/-- Cache entry holding an empty-string token with a far-future expiry
and a cached bundle: present by the specification's wording, falsy for
the implementation. -/
def entryEmptyTok : CacheState :=
  { token := some "", tokenExpiresAt := some 10000000, bundle := some [("FOO", "bar")] }

end Fixtures

section Claims

/-- C9: credential resolution tries the explicit configuration value,
then the ambient `ENV_GUARDS_API_KEY` environment default, then the
best-effort keytar lookup keyed by endpoint plus all scope fields (any
store failure swallowed); when no source yields a credential it fails
with the fixed error describing the resolution paths. -/
theorem c9_resolution_order (cfg : EnvGuardsConfig) (penv : EnvMap)
    (kt : String → String → Except Unit (Option String)) :
    (truthy cfg.apiKey = true →
      resolveRuntimeKey cfg penv kt = .ok (cfg.apiKey.getD "")) ∧
    (truthy cfg.apiKey = false →
      truthy (lookupEnv penv "ENV_GUARDS_API_KEY") = true →
      resolveRuntimeKey cfg penv kt = .ok ((lookupEnv penv "ENV_GUARDS_API_KEY").getD "")) ∧
    (∀ account k, truthy cfg.apiKey = false →
      truthy (lookupEnv penv "ENV_GUARDS_API_KEY") = false →
      keytarAccount cfg = some account →
      kt "env-guards" account = .ok (some k) → k ≠ "" →
      resolveRuntimeKey cfg penv kt = .ok k) ∧
    ((∀ s a, kt s a = .error ()) → truthy cfg.apiKey = false →
      truthy (lookupEnv penv "ENV_GUARDS_API_KEY") = false →
      resolveRuntimeKey cfg penv kt = .error .runtimeKeyNotFound) ∧
    (errorMessage .runtimeKeyNotFound =
      "[Env.Guards] Runtime key not found. Please set ENV_GUARDS_API_KEY, use `env-guards run`, or run `env-guards add-runtime-key`.") := by
  refine ⟨?_, ?_, ?_, ?_, rfl⟩
  · intro h
    simp [resolveRuntimeKey, h]
  · intro h1 h2
    simp [resolveRuntimeKey, h1, h2]
  · intro account k h1 h2 hacc hkt hk
    have hek : k.isEmpty = false := by
      cases he : k.isEmpty
      · rfl
      · exact absurd ((String.isEmpty_iff k).mp he) hk
    simp [resolveRuntimeKey, h1, h2, keytarLookup, hacc, hkt, hek]
  · intro hfail h1 h2
    simp only [resolveRuntimeKey, h1, h2, Bool.false_eq_true, if_false, keytarLookup]
    cases keytarAccount cfg <;> simp [hfail]

/-- Witness for C9: the explicit credential wins in the demonstration
configuration. -/
theorem c9_resolution_order_witness :
    resolveRuntimeKey cfgDemo [] ktNone = .ok "k1" :=
  (c9_resolution_order cfgDemo [] ktNone).1 (by decide)

/-- C10: a call arriving while a computation is pending is answered with
that pending computation, its own options never read — the returned
identity and gate state are those of the in-flight computation, and the
outcome the caller receives is computed from the in-flight computation's
options, not the caller's. -/
theorem c10_options_ignored (g : GateState) (id : Nat) (h : g.pending = some id) :
    (∀ o, loadEnvStep g o = (id, g)) ∧
    (∀ o w cache0 penv0,
      runOutcome w cache0 penv0 (loadEnvStep g o).2 (loadEnvStep g o).1 =
        loadEnvInternal w (g.runs.getD id none) cache0 penv0) := by
  constructor
  · intro o
    simp [loadEnvStep, h]
  · intro o w cache0 penv0
    simp [loadEnvStep, h, runOutcome]

/-- Witness for C10: a caller passing different options (other endpoint,
other timeout) is handed the pending computation unchanged. -/
theorem c10_options_ignored_witness :
    loadEnvStep { pending := some 0, runs := [optsDemo] } optsOther =
      (0, { pending := some 0, runs := [optsDemo] }) ∧
    runOutcome wDemo [] [] (loadEnvStep { pending := some 0, runs := [optsDemo] } optsOther).2
        (loadEnvStep { pending := some 0, runs := [optsDemo] } optsOther).1 =
      loadEnvInternal wDemo optsDemo [] [] :=
  ⟨(c10_options_ignored { pending := some 0, runs := [optsDemo] } 0 rfl).1 optsOther,
   (c10_options_ignored { pending := some 0, runs := [optsDemo] } 0 rfl).2 optsOther wDemo [] []⟩

/-- C2: a burst of load calls issued while no prior completion intervenes
launches exactly one internal computation — the first caller's — and
every caller is handed that same computation (hence the identical
resolved value or identical error); completion clears the gate so the
next call launches a fresh computation; and without a 401 the single
shared computation performs at most one exchange and one fetch in total
for all callers. -/
theorem c2_single_flight (w : World) (cache0 : List (String × CacheState))
    (penv0 : EnvMap) (g : GateState) (o1 : Option LoadEnvOptions)
    (rest : List (Option LoadEnvOptions)) (hp : g.pending = none) :
    callsWhilePending g (o1 :: rest) =
      (List.replicate (rest.length + 1) g.runs.length,
       { pending := some g.runs.length, runs := g.runs ++ [o1] }) ∧
    runOutcome w cache0 penv0 (callsWhilePending g (o1 :: rest)).2 g.runs.length =
      loadEnvInternal w o1 cache0 penv0 ∧
    (completeStep (callsWhilePending g (o1 :: rest)).2).pending = none ∧
    (∀ o2, loadEnvStep (completeStep (callsWhilePending g (o1 :: rest)).2) o2 =
      (g.runs.length + 1,
       { pending := some (g.runs.length + 1), runs := g.runs ++ [o1] ++ [o2] })) ∧
    ((w.fetchAt 0).is401 = false →
      exchangeOps (loadEnvInternal w o1 cache0 penv0).trace ≤ 1 ∧
      fetchOps (loadEnvInternal w o1 cache0 penv0).trace ≤ 1) := by
  have h1 : loadEnvStep g o1 =
      (g.runs.length, { pending := some g.runs.length, runs := g.runs ++ [o1] }) := by
    simp [loadEnvStep, hp]
  have h2 := callsWhilePending_of_pending rest
    { pending := some g.runs.length, runs := g.runs ++ [o1] } g.runs.length rfl
  have hcalls : callsWhilePending g (o1 :: rest) =
      (g.runs.length :: rest.map (fun _ => g.runs.length),
       { pending := some g.runs.length, runs := g.runs ++ [o1] }) := by
    simp [callsWhilePending, h1, h2]
  refine ⟨?_, ?_, ?_, ?_, ?_⟩
  · rw [hcalls]
    congr 1
    simp [List.replicate_succ, List.map_const']
  · rw [hcalls]
    simp only [runOutcome]
    rw [getD_append_singleton]
  · rw [hcalls]
    rfl
  · intro o2
    rw [hcalls]
    simp [completeStep, loadEnvStep]
  · exact fun h => loadEnvInternal_ops_no401 w o1 cache0 penv0 h

/-- Witness for C2: three concurrent callers from the idle gate, in a
world whose first fetch is a plain success. -/
theorem c2_single_flight_witness :
    callsWhilePending { pending := none, runs := [] } [optsDemo, optsOther, none] =
      (List.replicate 3 0, { pending := some 0, runs := [optsDemo] }) ∧
    exchangeOps (loadEnvInternal wDemo optsDemo [] []).trace ≤ 1 ∧
    fetchOps (loadEnvInternal wDemo optsDemo [] []).trace ≤ 1 :=
  ⟨(c2_single_flight wDemo [] [] { pending := none, runs := [] } optsDemo
      [optsOther, none] rfl).1,
   (c2_single_flight wDemo [] [] { pending := none, runs := [] } optsDemo
      [optsOther, none] rfl).2.2.2.2 (by decide)⟩

/-- C7: a load's effect on the environment sink is atomic — on success
every key/value pair of the returned bundle is present unchanged in the
sink, and on any failure the sink is exactly what it was before the
load. -/
theorem c7_atomic_apply (w : World) (opts : Option LoadEnvOptions)
    (cache0 : List (String × CacheState)) (penv0 : EnvMap) :
    (∀ b, (loadEnvInternal w opts cache0 penv0).result = .ok b →
      ∀ k v, lookupEnv b k = some v →
        lookupEnv (loadEnvInternal w opts cache0 penv0).procEnv k = some v) ∧
    (∀ e, (loadEnvInternal w opts cache0 penv0).result = .error e →
      (loadEnvInternal w opts cache0 penv0).procEnv = penv0) := by
  constructor
  · intro b hb k v hkv
    rw [(loadEnvInternal_apply w opts cache0 penv0).1 b hb]
    exact lookupEnv_assignEnv hkv
  · exact (loadEnvInternal_apply w opts cache0 penv0).2

/-- Witness for C7: the fetched key is visible in the sink after the
successful demonstration load, and a failing load leaves the empty sink
empty. -/
theorem c7_atomic_apply_witness :
    lookupEnv (loadEnvInternal wDemo optsDemo [] []).procEnv "FOO" = some "bar" ∧
    (loadEnvInternal wQuiet none [] []).procEnv = [] :=
  ⟨(c7_atomic_apply wDemo optsDemo [] []).1 [("FOO", "bar")] rfl "FOO" "bar" rfl,
   (c7_atomic_apply wQuiet none [] []).2 .missingApiUrl rfl⟩

/-- C3: when the cache entry of the resolved fingerprint holds a bundle
and an already-valid token, the load issues no network request at all and
returns the cached bundle unchanged, after applying it to the
environment sink. -/
theorem c3_cache_hit (w : World) (opts : Option LoadEnvOptions)
    (cache0 : List (String × CacheState)) (penv0 : EnvMap)
    (key : String) (cfg : EnvGuardsConfig) (fp : String) (entry : CacheState)
    (b : List (String × String))
    (hb : w.isBrowser = false)
    (hcfg : getFullConfig opts penv0 = cfg)
    (hu : truthy cfg.apiUrl = true)
    (hk : resolveRuntimeKey cfg penv0 w.keytar = .ok key)
    (hfp : getConfigFingerprint (cfg.apiUrl.getD "") key cfg = fp)
    (hentry : cacheLookup cache0 fp = some entry)
    (hv : tokenValid entry w.now = true)
    (hbun : entry.bundle = some b) :
    loadEnvInternal w opts cache0 penv0 =
      { result := .ok b, cache := cacheUpdate cache0 fp entry,
        procEnv := assignEnv penv0 b, trace := [] } := by
  simp only [loadEnvInternal, hb, Bool.false_eq_true, if_false]
  rw [hcfg]
  simp only [hu, if_true]
  rw [hk]
  simp only [afterResolve]
  rw [hfp, hentry]
  simp only [Option.getD_some, hv, if_true, hbun]

/-- Witness for C3: a warm cache entry under the demonstration
fingerprint short-circuits even in a world where every network request
would time out. -/
theorem c3_cache_hit_witness :
    loadEnvInternal wQuiet optsDemo [(fpDemo, entryDemo)] [] =
      { result := .ok [("FOO", "bar")],
        cache := cacheUpdate [(fpDemo, entryDemo)] fpDemo entryDemo,
        procEnv := assignEnv [] [("FOO", "bar")], trace := [] } :=
  c3_cache_hit wQuiet optsDemo [(fpDemo, entryDemo)] [] "k1" cfgDemo fpDemo
    entryDemo [("FOO", "bar")] rfl rfl (by decide) rfl rfl rfl (by decide) rfl

/-- C4 counterexample: with both the endpoint and the credential missing,
the load does fail before any network request, but the configuration
error names only `apiUrl` — neither `apiKey`, nor the ambient variable
name, nor the word credential appears in the message, refuting
"names every missing mandatory field". -/
theorem c4_counterexample :
    (getFullConfig none []).apiUrl = none ∧
    (getFullConfig none []).apiKey = none ∧
    (loadEnvInternal wQuiet none [] []).result = .error .missingApiUrl ∧
    (loadEnvInternal wQuiet none [] []).trace = [] ∧
    mentions (errorMessage .missingApiUrl) "apiKey" = false ∧
    mentions (errorMessage .missingApiUrl) "ENV_GUARDS_API_KEY" = false ∧
    mentions (errorMessage .missingApiUrl) "credential" = false := by
  refine ⟨rfl, rfl, rfl, rfl, ?_, ?_, ?_⟩ <;> decide

/-- C4 as amended: a configuration with a missing (or empty) endpoint URL
fails synchronously, before any network request and without touching
cache or sink, with the configuration error that names the endpoint
field; a missing credential is reported separately by the credential
resolver and only once the endpoint check has passed. -/
theorem c4_amended (w : World) (opts : Option LoadEnvOptions)
    (cache0 : List (String × CacheState)) (penv0 : EnvMap)
    (hb : w.isBrowser = false)
    (hu : truthy (getFullConfig opts penv0).apiUrl = false) :
    loadEnvInternal w opts cache0 penv0 =
      noNetOutcome (.error .missingApiUrl) cache0 penv0 ∧
    mentions (errorMessage .missingApiUrl) "apiUrl" = true := by
  refine ⟨?_, by decide⟩
  simp only [loadEnvInternal, hb, Bool.false_eq_true, if_false, hu]

/-- Witness for C4 (amended): the empty configuration in the quiet world. -/
theorem c4_amended_witness :
    loadEnvInternal wQuiet none [] [] = noNetOutcome (.error .missingApiUrl) [] [] :=
  (c4_amended wQuiet none [] [] rfl rfl).1

/-- C5 at the failing input: the exchange request of a cold load carries
the resolved credential `k1` inside its JSON body (first field), while
the claim and the specification require the credential to travel only in
the Authorization header.  The merged configuration's `apiKey` survives
the `const { apiUrl, ...scope } = config` destructuring and is
serialized. -/
theorem c5_credential_in_body :
    (loadEnvInternal wDemo optsDemo [] []).trace =
      [.exchange [("apiKey", "k1"), ("project", "myapp"), ("env", "prod"), ("service", "web")],
       .fetch "t1"] ∧
    ("apiKey", "k1") ∈ exchangeRequestBody (getFullConfig optsDemo []) := by
  exact ⟨rfl, by decide⟩

/-- C6 counterexample: a credential of at most 12 characters appears in
full inside the fingerprint — `substring(0, 12)` of `"k1"` is `"k1"`
itself — refuting "never contains the full credential". -/
theorem c6_counterexample :
    getConfigFingerprint "http://api.test" "k1" cfgDemo =
      "http://api.test|k1||myapp|prod|web" ∧
    jsSubstring "k1" 12 = "k1" ∧
    mentions (getConfigFingerprint "http://api.test" "k1" cfgDemo) "k1" = true := by
  refine ⟨rfl, rfl, by decide⟩

/-- C6 as amended: the fingerprint is the endpoint, the first 12
characters of the credential, and the scope fields joined with the fixed
delimiter; it depends on the credential only through that prefix, and for
credentials longer than 12 characters the embedded component is a proper
prefix, never the full credential — a credential of at most 12
characters, however, appears in full. -/
theorem c6_amended (apiUrl key : String) (cfg : EnvGuardsConfig) :
    getConfigFingerprint apiUrl key cfg =
      String.intercalate "|" [apiUrl, jsSubstring key 12, optStr cfg.org,
        optStr cfg.project, optStr cfg.env, optStr cfg.service] ∧
    (∀ key2, jsSubstring key 12 = jsSubstring key2 12 →
      getConfigFingerprint apiUrl key cfg = getConfigFingerprint apiUrl key2 cfg) ∧
    (12 < key.length → jsSubstring key 12 ≠ key) := by
  refine ⟨rfl, ?_, ?_⟩
  · intro key2 h
    simp [getConfigFingerprint, h]
  · intro hlen heq
    have hdata : key.length = key.data.length := rfl
    have hl : (key.data.take 12).length = key.data.length :=
      congrArg String.length heq
    rw [List.length_take] at hl
    omega

/-- Witness for C6 (amended): a realistic 24-character credential is
truncated to a proper prefix, and rotating it to another credential with
the same first 12 characters leaves the fingerprint unchanged. -/
theorem c6_amended_witness :
    jsSubstring "env-guards_sk_0123456789" 12 ≠ "env-guards_sk_0123456789" ∧
    getConfigFingerprint "http://api.test" "env-guards_sk_0123456789" cfgDemo =
      getConfigFingerprint "http://api.test" "env-guards_sk_AAAABBBBCCCC" cfgDemo :=
  ⟨(c6_amended "http://api.test" "env-guards_sk_0123456789" cfgDemo).2.2 (by decide),
   (c6_amended "http://api.test" "env-guards_sk_0123456789" cfgDemo).2.1
     "env-guards_sk_AAAABBBBCCCC" (by decide)⟩

/-- C8 counterexample: a cache entry whose token is the empty string with
a far-future expiry is "present with fresh expiry" in the claim's words,
so the claim predicts no main-path exchange; the implementation's
truthiness test rejects it and performs an exchange. -/
theorem c8_counterexample :
    tokenPresentAndFresh entryEmptyTok wDemo.now = true ∧
    mainExchangeOps (loadEnvInternal wDemo optsDemo [(fpDemo, entryEmptyTok)] []).trace = 1 ∧
    ¬ (mainExchangeOps (loadEnvInternal wDemo optsDemo [(fpDemo, entryEmptyTok)] []).trace =
        (if tokenPresentAndFresh entryEmptyTok wDemo.now then 0 else 1)) := by
  refine ⟨by decide, by decide, by decide⟩

/-- C8 as amended: the cached token is treated as valid iff it is present
and non-empty, its expiry is present and non-zero, and the expiry
strictly exceeds now plus the 30-second skew; the main path performs a
token exchange (before any fetch) iff the token is invalid by this
definition. -/
theorem c8_amended (w : World) (opts : Option LoadEnvOptions)
    (cache0 : List (String × CacheState)) (penv0 : EnvMap)
    (key : String) (cfg : EnvGuardsConfig) (fp : String) (entry : CacheState)
    (hb : w.isBrowser = false)
    (hcfg : getFullConfig opts penv0 = cfg)
    (hu : truthy cfg.apiUrl = true)
    (hk : resolveRuntimeKey cfg penv0 w.keytar = .ok key)
    (hfp : getConfigFingerprint (cfg.apiUrl.getD "") key cfg = fp)
    (hentry : (cacheLookup cache0 fp).getD
      { token := none, tokenExpiresAt := none, bundle := none } = entry) :
    mainExchangeOps (loadEnvInternal w opts cache0 penv0).trace =
      (if tokenValid entry w.now then 0 else 1) ∧
    (tokenValid entry w.now = true ↔
      ((∃ t, entry.token = some t ∧ t ≠ "") ∧
       (∃ e, entry.tokenExpiresAt = some e ∧ e ≠ 0 ∧ w.now + TOKEN_SKEW_MS < e))) := by
  constructor
  · simp only [loadEnvInternal, hb, Bool.false_eq_true, if_false]
    rw [hcfg]
    simp only [hu, if_true]
    rw [hk]
    simp only [afterResolve]
    rw [hfp, hentry]
    cases hv : tokenValid entry w.now
    · simp only [Bool.false_eq_true, if_false]
      split

      · simp [mainExchangeOps_exchange_nil]
      · rename_i token1 entry1 heq
        obtain ⟨rest, htr, -, -⟩ := fetchPhase_trace_shape w cfg
          ((opts.bind LoadEnvOptions.timeout).getD 5000) fp entry1 token1 1
          [.exchange (exchangeRequestBody cfg)] cache0 penv0
        rw [htr]
        simp [mainExchangeOps_exchange_fetch]
    · simp only [if_true]
      split
      · simp [mainExchangeOps]
      · obtain ⟨rest, htr, -, -⟩ := fetchPhase_trace_shape w cfg
          ((opts.bind LoadEnvOptions.timeout).getD 5000) fp entry (entry.token.getD "") 0
          [] cache0 penv0
        rw [htr]
        simp [mainExchangeOps_fetch_cons]
  · cases ht : entry.token with
    | none => simp [tokenValid, truthy, ht]
    | some t =>
      cases he : entry.tokenExpiresAt with
      | none => simp [tokenValid, truthy, ht, he]
      | some e =>
        constructor
        · intro h
          simp only [tokenValid, truthy, ht, he, Bool.and_eq_true, bne_iff_ne,
            decide_eq_true_eq, Bool.not_eq_true'] at h
          refine ⟨⟨t, rfl, fun ht0 => ?_⟩, ⟨e, rfl, h.2.1, h.2.2⟩⟩
          rw [ht0] at h
          exact absurd h.1 (by decide)
        · rintro ⟨⟨t', ht', hne⟩, ⟨e', he', he0, hlt⟩⟩
          injection ht' with ht''
          injection he' with he''
          subst ht''
          subst he''
          have : t.isEmpty = false := by
            cases hie : t.isEmpty
            · rfl
            · exact absurd ((String.isEmpty_iff t).mp hie) hne
          simp [tokenValid, truthy, ht, he, this, he0, hlt]

/-- Witness for C8 (amended): an empty cache forces one main-path
exchange in the demonstration world, matching the invalid verdict of the
definition. -/
theorem c8_amended_witness :
    mainExchangeOps (loadEnvInternal wDemo optsDemo [] []).trace =
      (if tokenValid { token := none, tokenExpiresAt := none, bundle := none } wDemo.now
       then 0 else 1) :=
  (c8_amended wDemo optsDemo [] [] "k1" cfgDemo fpDemo
    { token := none, tokenExpiresAt := none, bundle := none }
    rfl rfl (by decide) rfl rfl rfl).1

/-- C1: a load never issues a third bundle fetch (nor a third exchange),
and whenever the first bundle fetch of a load is answered 401 the
orchestrator performs exactly one retry cycle: it continues as the pure
retry computation that starts from the cache entry with token and bundle
cleared, performs one more exchange and one more fetch, and surfaces any
failure of either — covering both the cold/expired-token path and the
valid-token cache-miss path. -/
theorem c1_retry_once :
    (∀ w opts cache0 penv0,
      fetchOps (loadEnvInternal w opts cache0 penv0).trace ≤ 2 ∧
      exchangeOps (loadEnvInternal w opts cache0 penv0).trace ≤ 2) ∧
    (∀ (w : World) (opts : Option LoadEnvOptions)
       (cache0 : List (String × CacheState)) (penv0 : EnvMap)
       (key : String) (cfg : EnvGuardsConfig) (fp : String) (entry : CacheState)
       (s0 : Nat) (st0 : String) (tok : String) (exp : Int)
       (fl : String) (fv : List (String × String)),
      w.isBrowser = false →
      getFullConfig opts penv0 = cfg →
      truthy cfg.apiUrl = true →
      resolveRuntimeKey cfg penv0 w.keytar = .ok key →
      getConfigFingerprint (cfg.apiUrl.getD "") key cfg = fp →
      (cacheLookup cache0 fp).getD
        { token := none, tokenExpiresAt := none, bundle := none } = entry →
      tokenValid entry w.now = false →
      w.exchangeAt 0 = .resp s0 st0 tok exp →
      resOk s0 = true →
      w.fetchAt 0 = .resp 401 fl fv →
      loadEnvInternal w opts cache0 penv0 =
        retryCycleSpec w cfg ((opts.bind LoadEnvOptions.timeout).getD 5000) fp
          { token := none, tokenExpiresAt := some exp, bundle := none } 1
          [.exchange (exchangeRequestBody cfg), .fetch tok] cache0 penv0) ∧
    (∀ (w : World) (opts : Option LoadEnvOptions)
       (cache0 : List (String × CacheState)) (penv0 : EnvMap)
       (key : String) (cfg : EnvGuardsConfig) (fp : String) (entry : CacheState)
       (fl : String) (fv : List (String × String)),
      w.isBrowser = false →
      getFullConfig opts penv0 = cfg →
      truthy cfg.apiUrl = true →
      resolveRuntimeKey cfg penv0 w.keytar = .ok key →
      getConfigFingerprint (cfg.apiUrl.getD "") key cfg = fp →
      (cacheLookup cache0 fp).getD
        { token := none, tokenExpiresAt := none, bundle := none } = entry →
      tokenValid entry w.now = true →
      entry.bundle = none →
      w.fetchAt 0 = .resp 401 fl fv →
      loadEnvInternal w opts cache0 penv0 =
        retryCycleSpec w cfg ((opts.bind LoadEnvOptions.timeout).getD 5000) fp
          { token := none, tokenExpiresAt := entry.tokenExpiresAt, bundle := none } 0
          [.fetch (entry.token.getD "")] cache0 penv0) := by
  refine ⟨loadEnvInternal_ops_le, ?_, ?_⟩
  · intro w opts cache0 penv0 key cfg fp entry s0 st0 tok exp fl fv
      hb hcfg hu hk hfp hentry hv hex hok h401
    simp only [loadEnvInternal, hb, Bool.false_eq_true, if_false]
    rw [hcfg]
    simp only [hu, if_true]
    rw [hk]
    simp only [afterResolve]
    rw [hfp, hentry]
    simp only [hv, Bool.false_eq_true, if_false]
    have hre : runExchange w 0 entry ((opts.bind LoadEnvOptions.timeout).getD 5000) =
        .ok (tok, { entry with token := some tok, tokenExpiresAt := some exp }) := by
      simp [runExchange, hex, hok]
    rw [hre]
    simp only [fetchPhase]
    have hrf : runFetch w 0 ((opts.bind LoadEnvOptions.timeout).getD 5000) =
        .error .unauthorized := by
      simp [runFetch, h401]
    rw [hrf]
    simp only [retryCycleSpec]
    rfl
  · intro w opts cache0 penv0 key cfg fp entry fl fv
      hb hcfg hu hk hfp hentry hv hbun h401
    simp only [loadEnvInternal, hb, Bool.false_eq_true, if_false]
    rw [hcfg]
    simp only [hu, if_true]
    rw [hk]
    simp only [afterResolve]
    rw [hfp, hentry]
    simp only [hv, if_true, hbun]
    simp only [fetchPhase]
    have hrf : runFetch w 0 ((opts.bind LoadEnvOptions.timeout).getD 5000) =
        .error .unauthorized := by
      simp [runFetch, h401]
    rw [hrf]
    simp only [retryCycleSpec]
    rfl

/-- Witness for C1: in the 401-then-recover world the cold load equals
its retry cycle; evaluated, it recovers the second bundle with exactly
two exchanges and two fetches. -/
theorem c1_retry_once_witness :
    loadEnvInternal w401Demo optsDemo [] [] =
      retryCycleSpec w401Demo cfgDemo 5000 fpDemo
        { token := none, tokenExpiresAt := some 999999, bundle := none } 1
        [.exchange (exchangeRequestBody cfgDemo), .fetch "t-old"] [] [] ∧
    (loadEnvInternal w401Demo optsDemo [] []).result = .ok [("RECOVERED", "true")] ∧
    fetchOps (loadEnvInternal w401Demo optsDemo [] []).trace = 2 ∧
    exchangeOps (loadEnvInternal w401Demo optsDemo [] []).trace = 2 :=
  ⟨c1_retry_once.2.1 w401Demo optsDemo [] [] "k1" cfgDemo fpDemo
      { token := none, tokenExpiresAt := none, bundle := none }
      200 "OK" "t-old" 999999 "Unauthorized" []
      rfl rfl (by decide) rfl rfl rfl (by decide) rfl (by decide) rfl,
   rfl, by decide, by decide⟩

end Claims

end EnvGuards
